import Mathlib

/-!
Verification of the transparent shielded-pool action proofs and their
surrounding data model (Penumbra MVP1 style repository).

The Rust sources under verification are:
  crypto/src/proofs/transparent.rs   (SpendProof, OutputProof, SwapProof,
                                      SwapClaimProof and their conversions)
  crypto/src/dex/swap/ciphertext.rs  (SwapCiphertext::decrypt)
  component/src/shielded_pool/state_key.rs
  transaction/src/action/swap.rs, transaction/src/action/swap_claim.rs

The hash/field/group primitives (decaf377 field and group operations, the
Poseidon-style note commitment, Pedersen value commitments, nullifier PRF,
key agreement, the tiered commitment tree internals) live outside these
files, in external crates; the verifiers only combine their results.  We
therefore embed every verifier as a function over an abstract bundle of
primitive operations (`Primitives`), with all carrier types taken to be
`Nat`; each theorem quantifies over the bundle, so it holds for every
instantiation of the primitives, exactly as the Rust control flow does.
-/

/-- Carrier for field elements `Fq` (decaf377 base field). -/
abbrev Fq := Nat

/-- Carrier for scalar field elements `Fr`. -/
abbrev Fr := Nat

/-- Carrier for decaf377 group elements. -/
abbrev Element := Nat

/-- Carrier for 32-byte strings (compressed points, keys, clue keys). -/
abbrev B32 := Nat

/-- `value::Value`: an amount (u64) and an asset id (field element). -/
structure Value where
  amount : Nat
  assetId : Fq
  deriving Repr, DecidableEq

/-- `transaction::Fee`: a fee amount (u64 of the staking token). -/
abbrev Fee := Nat

/-- A diversified address `(g_d, pk_d, ck_d)`; the Rust `Address` also
caches the field-element form `transmission_key_s` of `pk_d`. -/
structure Address where
  diversifiedGenerator : Element
  transmissionKey : B32
  transmissionKeyS : Fq
  clueKey : B32
  deriving Repr, DecidableEq

/-- A trading pair of two asset ids (`dex::TradingPair`). -/
structure TradingPair where
  asset1 : Fq
  asset2 : Fq
  deriving Repr, DecidableEq

/-- `tct::Proof`: an inclusion proof carries its position and the claimed
commitment; verification against an anchor is an external tree operation. -/
structure TctProof where
  position : Nat
  commitment : Fq
  deriving Repr, DecidableEq

/-- `dex::BatchSwapOutputData` (only the height is read by the verifier). -/
structure BatchSwapOutputData where
  height : Nat
  deriving Repr, DecidableEq

/-- The abstract cryptographic primitives the transparent verifiers call.
Each field models one external operation, with the same arguments and
result shape as in the Rust source. -/
structure Primitives where
  /-- `Fq::from_bytes` on the 32-byte transmission key: fails on
  non-canonical encodings. -/
  fqFromBytes : B32 → Option Fq
  /-- `note::commitment(note_blinding, value, g_d, transmission_key_s, ck_d)`. -/
  noteCommit : Fq → Value → Element → Fq → B32 → Fq
  /-- `Value::commit(blinding)`: Pedersen value commitment. -/
  valueCommit : Value → Fr → Nat
  /-- Negation of a value commitment (group negation). -/
  vcNeg : Nat → Nat
  /-- Addition of value commitments (group addition). -/
  vcAdd : Nat → Nat → Nat
  /-- `Fee::commit(blinding)`. -/
  feeCommit : Fee → Fr → Nat
  /-- `tct::Proof::verify(anchor)`: true iff the path folds to the root. -/
  proofVerify : TctProof → Nat → Bool
  /-- `NullifierKey::derive_nullifier(position, commitment)`. -/
  deriveNullifier : Fq → Nat → Fq → Nat
  /-- The 32-byte encoding of a spend-auth verification key. -/
  vkBytes : Nat → B32
  /-- `ak.randomize(spend_auth_randomizer)`. -/
  randomize : Nat → Fr → Nat
  /-- `Element::is_identity` (also used for verification keys). -/
  isIdentity : Nat → Bool
  /-- The incoming-viewing-key image of `g_d` for the full viewing key
  assembled from `(ak, nk)`: `fvk.incoming().diversified_public(g_d)`. -/
  ivkDiversifiedPublic : Nat → Fq → Element → B32
  /-- `ka::Secret::diversified_public(g_d)` for an ephemeral secret. -/
  diversifiedPublic : Fr → Element → B32
  /-- `Position::epoch()` (a u16). -/
  posEpoch : Nat → Nat
  /-- `Position::block()` (a u16). -/
  posBlock : Nat → Nat
  /-- `SwapPlaintext::from_parts(trading_pair, delta_1, delta_2, fee,
  claim_address)` followed by `.asset_id()`: `none` models the fallible
  construction failing. -/
  swapPlaintextAssetId : TradingPair → Nat → Nat → Fee → Address → Option Fq

/-- `SpendProof` (crypto/src/proofs/transparent.rs): the witness data. -/
structure SpendProof where
  noteCommitmentProof : TctProof
  g_d : Element
  pk_d : B32
  ck_d : B32
  value : Value
  vBlinding : Fr
  noteBlinding : Fq
  spendAuthRandomizer : Fr
  ak : Nat
  nk : Fq
  deriving Repr, DecidableEq

/-- `SpendProof::verify(anchor, value_commitment, nullifier, rk)`,
translated check for check from the Rust source. -/
def SpendProof.verify (P : Primitives) (p : SpendProof) (anchor : Nat)
    (valueCommitment : Nat) (nullifier : Nat) (rk : Nat) :
    Except String Unit :=
  match P.fqFromBytes p.pk_d with
  | none => .error "transmission key mismatch"
  | some transmissionKeyS =>
    if p.noteCommitmentProof.commitment ≠
        P.noteCommit p.noteBlinding p.value p.g_d transmissionKeyS p.ck_d then
      .error "note commitment mismatch"
    else if ¬ P.proofVerify p.noteCommitmentProof anchor then
      .error "merkle root mismatch"
    else if P.valueCommit p.value p.vBlinding ≠ valueCommitment then
      .error "value commitment mismatch"
    else if P.isIdentity p.g_d || P.isIdentity p.ak then
      .error "unexpected identity"
    else if nullifier ≠ P.deriveNullifier p.nk p.noteCommitmentProof.position
        p.noteCommitmentProof.commitment then
      .error "bad nullifier"
    else if P.vkBytes rk ≠ P.vkBytes (P.randomize p.ak p.spendAuthRandomizer) then
      .error "invalid spend auth randomizer"
    else if p.pk_d ≠ P.ivkDiversifiedPublic p.ak p.nk p.g_d then
      .error "invalid diversified address"
    else
      .ok ()

/-- `OutputProof` (crypto/src/proofs/transparent.rs): the witness data. -/
structure OutputProof where
  g_d : Element
  pk_d : B32
  ck_d : B32
  value : Value
  vBlinding : Fr
  noteBlinding : Fq
  esk : Fr
  deriving Repr, DecidableEq

/-- `OutputProof::verify(value_commitment, note_commitment, epk)`,
translated check for check from the Rust source (identity check last). -/
def OutputProof.verify (P : Primitives) (p : OutputProof)
    (valueCommitment : Nat) (noteCommitment : Fq) (epk : B32) :
    Except String Unit :=
  match P.fqFromBytes p.pk_d with
  | none => .error "transmission key mismatch"
  | some transmissionKeyS =>
    if noteCommitment ≠
        P.noteCommit p.noteBlinding p.value p.g_d transmissionKeyS p.ck_d then
      .error "note commitment mismatch"
    else if valueCommitment ≠ P.vcNeg (P.valueCommit p.value p.vBlinding) then
      .error "value commitment mismatch"
    else if P.diversifiedPublic p.esk p.g_d ≠ epk then
      .error "ephemeral public key mismatch"
    else if P.isIdentity p.g_d then
      .error "unexpected identity"
    else
      .ok ()

/-- C1: `SpendProof::verify` returns `Ok` iff the note commitment recomputed
from the witness (through the canonical field-element form of `pk_d`)
matches the inclusion proof's commitment, the inclusion proof verifies
against the anchor, the value commitment matches, neither `g_d` nor `ak`
is the identity, the nullifier is the one derived from `nk` at the proof's
position and commitment, `rk` is `ak` randomized by the spend-auth
randomizer (compared by encoding, as in the source), and the
incoming-viewing image of `g_d` under `(ak, nk)` equals `pk_d`. -/
theorem spend_verify_ok_iff (P : Primitives) (p : SpendProof)
    (anchor valueCommitment nullifier rk : Nat) :
    p.verify P anchor valueCommitment nullifier rk = .ok () ↔
      ((∃ s, P.fqFromBytes p.pk_d = some s ∧
          p.noteCommitmentProof.commitment =
            P.noteCommit p.noteBlinding p.value p.g_d s p.ck_d) ∧
        P.proofVerify p.noteCommitmentProof anchor = true ∧
        P.valueCommit p.value p.vBlinding = valueCommitment ∧
        P.isIdentity p.g_d = false ∧ P.isIdentity p.ak = false ∧
        nullifier = P.deriveNullifier p.nk p.noteCommitmentProof.position
          p.noteCommitmentProof.commitment ∧
        P.vkBytes rk = P.vkBytes (P.randomize p.ak p.spendAuthRandomizer) ∧
        p.pk_d = P.ivkDiversifiedPublic p.ak p.nk p.g_d) := by
  cases h : P.fqFromBytes p.pk_d with
  | none => simp [SpendProof.verify, h]
  | some s =>
    simp only [SpendProof.verify, h]
    split_ifs with h1 h2 h3 h4 h5 h6 h7 <;>
      simp_all [Bool.or_eq_true, not_or] <;> aesop

/-- C4: `OutputProof::verify` returns `Ok` iff the recomputed note
commitment matches, the value commitment equals the negation of
`value.commit(v_blinding)`, `epk` is `esk` applied to `g_d`, and `g_d`
is not the identity. -/
theorem output_verify_ok_iff (P : Primitives) (p : OutputProof)
    (valueCommitment : Nat) (noteCommitment : Fq) (epk : B32) :
    p.verify P valueCommitment noteCommitment epk = .ok () ↔
      ((∃ s, P.fqFromBytes p.pk_d = some s ∧
          noteCommitment =
            P.noteCommit p.noteBlinding p.value p.g_d s p.ck_d) ∧
        valueCommitment = P.vcNeg (P.valueCommit p.value p.vBlinding) ∧
        P.diversifiedPublic p.esk p.g_d = epk ∧
        P.isIdentity p.g_d = false) := by
  cases h : P.fqFromBytes p.pk_d with
  | none => simp [OutputProof.verify, h]
  | some s =>
    simp only [OutputProof.verify, h]
    split_ifs with h1 h2 h3 h4 <;> simp_all

/-- `SwapClaimProof` (crypto/src/proofs/transparent.rs): the witness data,
including the claimed output amounts and the two output notes' blinding
and ephemeral-secret fields. -/
structure SwapClaimProof where
  swapNftAssetId : Fq
  claimAddress : Address
  noteCommitmentProof : TctProof
  noteBlinding : Fq
  nk : Fq
  tradingPair : TradingPair
  delta1 : Nat
  delta2 : Nat
  lambda1 : Nat
  lambda2 : Nat
  noteBlinding1 : Fq
  esk1 : Fr
  noteBlinding2 : Fq
  esk2 : Fr
  deriving Repr, DecidableEq

/-- The height computed by `SwapClaimProof::verify` from the inclusion
proof's position: `epoch_duration * u64::from(epoch) + u64::from(block)`,
with u64 wrap-around made explicit. -/
def swapClaimHeight (P : Primitives) (epochDuration : Nat) (position : Nat) : Nat :=
  (epochDuration * P.posEpoch position % 2 ^ 64 + P.posBlock position) % 2 ^ 64

/-- The first `OutputProof` that `SwapClaimProof::verify` constructs for
the claimed outputs (and never verifies): amount `delta_1` of `asset_1`
to the claim address, with a zero value blinding. -/
def SwapClaimProof.outputProof1 (p : SwapClaimProof) : OutputProof :=
  { value := { amount := p.delta1, assetId := p.tradingPair.asset1 }
    vBlinding := 0
    noteBlinding := p.noteBlinding1
    esk := p.esk1
    g_d := p.claimAddress.diversifiedGenerator
    pk_d := p.claimAddress.transmissionKey
    ck_d := p.claimAddress.clueKey }

/-- The second `OutputProof` that `SwapClaimProof::verify` constructs for
the claimed outputs (and never verifies): amount `delta_2` of `asset_2`. -/
def SwapClaimProof.outputProof2 (p : SwapClaimProof) : OutputProof :=
  { value := { amount := p.delta2, assetId := p.tradingPair.asset2 }
    vBlinding := 0
    noteBlinding := p.noteBlinding2
    esk := p.esk2
    g_d := p.claimAddress.diversifiedGenerator
    pk_d := p.claimAddress.transmissionKey
    ck_d := p.claimAddress.clueKey }

/-- `SwapClaimProof::verify(anchor, nullifier, output_data, epoch_duration,
fee)`, translated check for check from the Rust source.  The two output
proofs above are constructed in the source but their verification is
commented out (a TODO), so they do not affect the result. -/
def SwapClaimProof.verify (P : Primitives) (p : SwapClaimProof) (anchor : Nat)
    (nullifier : Nat) (outputData : BatchSwapOutputData) (epochDuration : Nat)
    (fee : Fee) : Except String Unit :=
  let swapNftValue : Value := { amount := 1, assetId := p.swapNftAssetId }
  if p.noteCommitmentProof.commitment ≠
      P.noteCommit p.noteBlinding swapNftValue p.claimAddress.diversifiedGenerator
        p.claimAddress.transmissionKeyS p.claimAddress.clueKey then
    .error "note commitment mismatch"
  else
    match P.swapPlaintextAssetId p.tradingPair p.delta1 p.delta2 fee p.claimAddress with
    | none => .error "error generating expected swap plaintext"
    | some expectedAssetId =>
      if expectedAssetId ≠ p.swapNftAssetId then
        .error "improper swap NFT asset id"
      else if ¬ P.proofVerify p.noteCommitmentProof anchor then
        .error "merkle root mismatch"
      else if swapClaimHeight P epochDuration p.noteCommitmentProof.position ≠
          outputData.height then
        .error "note commitment was not for clearing price height"
      else if nullifier ≠ P.deriveNullifier p.nk p.noteCommitmentProof.position
          p.noteCommitmentProof.commitment then
        .error "bad nullifier"
      else
        .ok ()

/-- C3: if the height computed from the inclusion proof's position does not
equal `output_data.height`, `SwapClaimProof::verify` cannot succeed; the
clearing-price-height error is returned exactly when every earlier check
(NFT note commitment, swap plaintext construction, NFT asset id, merkle
path) passes and the heights differ — in particular, when the heights
agree this check passes, and verification never stops with this error. -/
theorem swapclaim_verify_height_check (P : Primitives) (p : SwapClaimProof)
    (anchor nullifier : Nat) (outputData : BatchSwapOutputData)
    (epochDuration : Nat) (fee : Fee) :
    (swapClaimHeight P epochDuration p.noteCommitmentProof.position ≠
        outputData.height →
      p.verify P anchor nullifier outputData epochDuration fee ≠ .ok ()) ∧
    (p.verify P anchor nullifier outputData epochDuration fee =
        .error "note commitment was not for clearing price height" ↔
      (p.noteCommitmentProof.commitment =
          P.noteCommit p.noteBlinding { amount := 1, assetId := p.swapNftAssetId }
            p.claimAddress.diversifiedGenerator p.claimAddress.transmissionKeyS
            p.claimAddress.clueKey ∧
        (∃ a, P.swapPlaintextAssetId p.tradingPair p.delta1 p.delta2 fee
            p.claimAddress = some a ∧ a = p.swapNftAssetId) ∧
        P.proofVerify p.noteCommitmentProof anchor = true ∧
        swapClaimHeight P epochDuration p.noteCommitmentProof.position ≠
          outputData.height)) := by
  cases h : P.swapPlaintextAssetId p.tradingPair p.delta1 p.delta2 fee
      p.claimAddress with
  | none =>
    simp only [SwapClaimProof.verify, h]
    split_ifs <;> simp_all
  | some a =>
    simp only [SwapClaimProof.verify, h]
    split_ifs with h1 h2 h3 h4 h5 <;> simp_all

/-- C9: the result of `SwapClaimProof::verify` does not depend on the
claimed output amounts `lambda_1`, `lambda_2` nor on the output notes'
blinding factors and ephemeral secrets: two proofs agreeing on all other
fields verify identically under every choice of public inputs. -/
theorem swapclaim_verify_ignores_outputs (P : Primitives) (p : SwapClaimProof)
    (l1 l2 : Nat) (b1 b2 : Fq) (e1 e2 : Fr) (anchor nullifier : Nat)
    (outputData : BatchSwapOutputData) (epochDuration : Nat) (fee : Fee) :
    SwapClaimProof.verify P
      { p with lambda1 := l1, lambda2 := l2, noteBlinding1 := b1,
               noteBlinding2 := b2, esk1 := e1, esk2 := e2 }
      anchor nullifier outputData epochDuration fee =
    p.verify P anchor nullifier outputData epochDuration fee := rfl

/-- `SwapProof` (crypto/src/proofs/transparent.rs): the witness data. -/
structure SwapProof where
  claimAddress : Address
  value_t1 : Value
  value_t2 : Value
  feeDelta : Fee
  swapNftAssetId : Fq
  noteBlinding : Fq
  esk : Fr
  deriving Repr, DecidableEq

/-- `SwapProof::verify(value_1_commitment, value_2_commitment,
value_fee_commitment, note_commitment, epk)`, translated check for check
from the Rust source.  The first two value commitments are unused
(underscore-prefixed in the source: deferred pending flow encryption). -/
def SwapProof.verify (P : Primitives) (p : SwapProof)
    (_value1Commitment _value2Commitment valueFeeCommitment : Nat)
    (noteCommitment : Fq) (epk : B32) : Except String Unit :=
  if noteCommitment ≠
      P.noteCommit p.noteBlinding { amount := 1, assetId := p.swapNftAssetId }
        p.claimAddress.diversifiedGenerator p.claimAddress.transmissionKeyS
        p.claimAddress.clueKey then
    .error "note commitment mismatch"
  else if valueFeeCommitment ≠ P.vcNeg (P.feeCommit p.feeDelta 0) then
    .error "value commitment mismatch"
  else if P.diversifiedPublic p.esk p.claimAddress.diversifiedGenerator ≠ epk then
    .error "ephemeral public key mismatch"
  else if P.isIdentity p.claimAddress.diversifiedGenerator then
    .error "unexpected identity"
  else
    .ok ()

/-- C5: `SwapProof::verify` cannot succeed when the fee value commitment
differs from the negation of `fee_delta` committed with a zero blinding;
the value-commitment error is returned exactly when the NFT note
commitment check passes and the fee commitment differs; and the two
per-asset input value commitments impose no check: the result is the same
for every choice of them. -/
theorem swap_verify_fee_commitment_check (P : Primitives) (p : SwapProof)
    (v1 v2 vf : Nat) (noteCommitment : Fq) (epk : B32) :
    (vf ≠ P.vcNeg (P.feeCommit p.feeDelta 0) →
      p.verify P v1 v2 vf noteCommitment epk ≠ .ok ()) ∧
    (p.verify P v1 v2 vf noteCommitment epk = .error "value commitment mismatch" ↔
      (noteCommitment =
          P.noteCommit p.noteBlinding { amount := 1, assetId := p.swapNftAssetId }
            p.claimAddress.diversifiedGenerator p.claimAddress.transmissionKeyS
            p.claimAddress.clueKey ∧
        vf ≠ P.vcNeg (P.feeCommit p.feeDelta 0))) ∧
    (∀ w1 w2 : Nat, p.verify P w1 w2 vf noteCommitment epk =
      p.verify P v1 v2 vf noteCommitment epk) := by
  refine ⟨?_, ?_, fun w1 w2 => rfl⟩ <;>
    · simp only [SwapProof.verify]
      split_ifs <;> simp_all

/-- A concrete instantiation of the primitives, used to evaluate the
verifiers on explicit inputs.  All operations are constant and the
identity test always answers `true`, so an address whose diversified
generator is the identity still satisfies every executed SwapClaim check. -/
def cPrimitives : Primitives where
  fqFromBytes := fun _ => some 0
  noteCommit := fun _ _ _ _ _ => 0
  valueCommit := fun _ _ => 0
  vcNeg := fun _ => 0
  vcAdd := fun _ _ => 0
  feeCommit := fun _ _ => 0
  proofVerify := fun _ _ => true
  deriveNullifier := fun _ _ _ => 0
  vkBytes := fun _ => 0
  randomize := fun _ _ => 0
  isIdentity := fun _ => true
  ivkDiversifiedPublic := fun _ _ _ => 0
  diversifiedPublic := fun _ _ => 0
  posEpoch := fun _ => 0
  posBlock := fun _ => 0
  swapPlaintextAssetId := fun _ _ _ _ _ => some 0

/-- A concrete `SwapClaimProof` whose executed checks all pass under
`cPrimitives`, while its output notes are mal-formed per the Output
checks (the claim address's diversified generator is the identity). -/
def cSwapClaimProof : SwapClaimProof where
  swapNftAssetId := 0
  claimAddress :=
    { diversifiedGenerator := 0, transmissionKey := 0,
      transmissionKeyS := 0, clueKey := 0 }
  noteCommitmentProof := { position := 0, commitment := 0 }
  noteBlinding := 0
  nk := 0
  tradingPair := { asset1 := 0, asset2 := 0 }
  delta1 := 0
  delta2 := 0
  lambda1 := 0
  lambda2 := 0
  noteBlinding1 := 0
  esk1 := 0
  noteBlinding2 := 0
  esk2 := 0

/-- C2: the well-formedness of the two output notes is NOT enforced by
`SwapClaimProof::verify` — the output-proof verifications are commented
out in the source.  Concretely: under `cPrimitives`, `cSwapClaimProof`
verifies, although its first constructed output proof fails the Output
checks (its `g_d` is the identity) for every choice of public inputs,
and likewise for the second. -/
theorem swapclaim_outputs_not_enforced :
    cSwapClaimProof.verify cPrimitives 0 0 { height := 0 } 0 0 = .ok () ∧
    (∀ vc nc epk,
      OutputProof.verify cPrimitives cSwapClaimProof.outputProof1 vc nc epk ≠
        .ok ()) ∧
    (∀ vc nc epk,
      OutputProof.verify cPrimitives cSwapClaimProof.outputProof2 vc nc epk ≠
        .ok ()) := by
  refine ⟨rfl, ?_, ?_⟩ <;>
    · intro vc nc epk
      simp only [OutputProof.verify, cPrimitives, SwapClaimProof.outputProof1,
        SwapClaimProof.outputProof2, cSwapClaimProof]
      split_ifs <;> simp_all

/-! ## Swap ciphertext decryption (crypto/src/dex/swap/ciphertext.rs) -/

/-- The possible outcomes of `SwapCiphertext::decrypt`: a plaintext, an
`Err` carrying the anyhow message the source builds, or a panic (the
source calls `expect` on the key agreement). -/
inductive DecryptOutcome where
  | ok (plaintext : Nat)
  | err (msg : String)
  | panic (msg : String)
  deriving Repr, DecidableEq

/-- The external primitives `SwapCiphertext::decrypt` composes: key
agreement, ephemeral public key derivation, payload key derivation, the
authenticated decryption, and the `SwapPlaintext` byte parser, together
with the fixed plaintext width `SWAP_LEN_BYTES`. -/
structure SwapCryptoPrimitives where
  keyAgreementWith : Fr → B32 → Option Nat
  diversifiedPublic : Fr → Element → B32
  payloadKeyDerive : Nat → B32 → Nat
  aeadDecrypt : Nat → List Nat → Option (List Nat)
  parseSwapPlaintext : List Nat → Option Nat
  swapLenBytes : Nat

/-- `SwapCiphertext::decrypt(esk, transmission_key, diversified_basepoint)`,
translated step for step from the Rust source: `expect` on key agreement
(a panic on failure), authenticated decryption with the `Swap` payload
domain, the fixed-width conversion of the decryption result, and the
`SwapPlaintext` parse, each failure keeping the source's error message. -/
def SwapCiphertext.decrypt (S : SwapCryptoPrimitives) (ciphertext : List Nat)
    (esk : Fr) (transmissionKey : B32) (diversifiedBasepoint : Element) :
    DecryptOutcome :=
  match S.keyAgreementWith esk transmissionKey with
  | none => .panic "key agreement succeeds"
  | some sharedSecret =>
    let epk := S.diversifiedPublic esk diversifiedBasepoint
    let key := S.payloadKeyDerive sharedSecret epk
    match S.aeadDecrypt key ciphertext with
    | none => .err "unable to decrypt swap ciphertext"
    | some decryptionResult =>
      if decryptionResult.length = S.swapLenBytes then
        match S.parseSwapPlaintext decryptionResult with
        | some plaintext => .ok plaintext
        | none => .err "unable to convert swap plaintext bytes into SwapPlaintext"
      else
        .err "swap decryption result did not fit in plaintext len"

/-- Crypto primitives whose authenticated decryption step fails. -/
def cSwapCryptoAeadFail : SwapCryptoPrimitives where
  keyAgreementWith := fun _ _ => some 0
  diversifiedPublic := fun _ _ => 0
  payloadKeyDerive := fun _ _ => 0
  aeadDecrypt := fun _ _ => none
  parseSwapPlaintext := fun _ => some 0
  swapLenBytes := 0

/-- Crypto primitives whose decryption succeeds but yields a result of the
wrong length (every list decrypts to itself; the expected width is 1). -/
def cSwapCryptoLenFail : SwapCryptoPrimitives where
  keyAgreementWith := fun _ _ => some 0
  diversifiedPublic := fun _ _ => 0
  payloadKeyDerive := fun _ _ => 0
  aeadDecrypt := fun _ bytes => some bytes
  parseSwapPlaintext := fun _ => some 0
  swapLenBytes := 1

/-- C6 counterexample: two failing decryptions return distinct error
results — the failure of the authenticated-decryption stage and the
failure of the length check are distinguishable, so decryption failure
is not a single indistinguishable error value. -/
theorem swap_decrypt_errors_distinguishable :
    SwapCiphertext.decrypt cSwapCryptoAeadFail [] 0 0 0 =
      .err "unable to decrypt swap ciphertext" ∧
    SwapCiphertext.decrypt cSwapCryptoLenFail [] 0 0 0 =
      .err "swap decryption result did not fit in plaintext len" ∧
    DecryptOutcome.err "unable to decrypt swap ciphertext" ≠
      DecryptOutcome.err "swap decryption result did not fit in plaintext len" := by
  refine ⟨rfl, rfl, ?_⟩
  decide

/-- C6 (amended): every failure of `SwapCiphertext::decrypt` is reported —
as a panic when key agreement fails (the source's `expect`), and otherwise
as an `Err` — but the three `Err` stages carry three distinct messages:
the result equals each stage's error exactly when that stage is the one
that failed, so the errors distinguish the failing stage. -/
theorem swap_decrypt_error_stages (S : SwapCryptoPrimitives)
    (ciphertext : List Nat) (esk : Fr) (transmissionKey : B32)
    (diversifiedBasepoint : Element) :
    (SwapCiphertext.decrypt S ciphertext esk transmissionKey diversifiedBasepoint =
        .panic "key agreement succeeds" ↔
      S.keyAgreementWith esk transmissionKey = none) ∧
    (SwapCiphertext.decrypt S ciphertext esk transmissionKey diversifiedBasepoint =
        .err "unable to decrypt swap ciphertext" ↔
      ∃ ss, S.keyAgreementWith esk transmissionKey = some ss ∧
        S.aeadDecrypt
          (S.payloadKeyDerive ss (S.diversifiedPublic esk diversifiedBasepoint))
          ciphertext = none) ∧
    (SwapCiphertext.decrypt S ciphertext esk transmissionKey diversifiedBasepoint =
        .err "swap decryption result did not fit in plaintext len" ↔
      ∃ ss r, S.keyAgreementWith esk transmissionKey = some ss ∧
        S.aeadDecrypt
          (S.payloadKeyDerive ss (S.diversifiedPublic esk diversifiedBasepoint))
          ciphertext = some r ∧ r.length ≠ S.swapLenBytes) ∧
    (SwapCiphertext.decrypt S ciphertext esk transmissionKey diversifiedBasepoint =
        .err "unable to convert swap plaintext bytes into SwapPlaintext" ↔
      ∃ ss r, S.keyAgreementWith esk transmissionKey = some ss ∧
        S.aeadDecrypt
          (S.payloadKeyDerive ss (S.diversifiedPublic esk diversifiedBasepoint))
          ciphertext = some r ∧ r.length = S.swapLenBytes ∧
          S.parseSwapPlaintext r = none) := by
  cases hka : S.keyAgreementWith esk transmissionKey with
  | none => simp [SwapCiphertext.decrypt, hka]
  | some ss =>
    cases hae : S.aeadDecrypt
        (S.payloadKeyDerive ss (S.diversifiedPublic esk diversifiedBasepoint))
        ciphertext with
    | none => simp [SwapCiphertext.decrypt, hka, hae]
    | some r =>
      by_cases hlen : r.length = S.swapLenBytes
      · cases hp : S.parseSwapPlaintext r with
        | none => simp [SwapCiphertext.decrypt, hka, hae, hlen, hp]
        | some pt => simp [SwapCiphertext.decrypt, hka, hae, hlen, hp]
      · simp [SwapCiphertext.decrypt, hka, hae, hlen]

/-! ## State keys (component/src/shielded_pool/state_key.rs) -/

/-- Carrier for nullifiers as used by the state-key functions. -/
abbrev Nullifier := Nat

/-- The `Display` renderings the state-key functions interpolate: the
source formats nullifiers and the three root types with `{}`; these
renderings are computed by external crates. -/
structure KeyDisplay where
  showNullifier : Nullifier → String
  showRoot : Nat → String
  showEpochRoot : Nat → String
  showBlockRoot : Nat → String

/-- `state_key::spent_nullifier_lookup`. -/
def spent_nullifier_lookup (D : KeyDisplay) (nullifier : Nullifier) : String :=
  "shielded_pool/spent_nullifiers/" ++ D.showNullifier nullifier

/-- `state_key::anchor_by_height`. -/
def anchor_by_height (height : Nat) : String :=
  "shielded_pool/anchor/" ++ toString height

/-- `state_key::anchor_lookup`. -/
def anchor_lookup (D : KeyDisplay) (anchor : Nat) : String :=
  "shielded_pool/valid_anchors/" ++ D.showRoot anchor

/-- `state_key::epoch_anchor_by_index`. -/
def epoch_anchor_by_index (index : Nat) : String :=
  "shielded_pool/epoch_anchor/" ++ toString index

/-- `state_key::epoch_anchor_lookup`. -/
def epoch_anchor_lookup (D : KeyDisplay) (anchor : Nat) : String :=
  "shielded_pool/valid_epoch_anchors/" ++ D.showEpochRoot anchor

/-- `state_key::block_anchor_by_height`. -/
def block_anchor_by_height (height : Nat) : String :=
  "shielded_pool/block_anchor/" ++ toString height

/-- `state_key::block_anchor_lookup`. -/
def block_anchor_lookup (D : KeyDisplay) (anchor : Nat) : String :=
  "shielded_pool/valid_block_anchors/" ++ D.showBlockRoot anchor

/-- `state_key::quarantined_spent_nullifier_lookup`. -/
def quarantined_spent_nullifier_lookup (D : KeyDisplay) (nullifier : Nullifier) :
    String :=
  "shielded_pool/quarantined_spent_nullifiers/" ++ D.showNullifier nullifier

/-- `state_key::scheduled_to_apply`. -/
def scheduled_to_apply (epoch : Nat) : String :=
  "shielded_pool/quarantined_to_apply_in_epoch/" ++ toString epoch

/-- C8: the state-key functions produce exactly the namespaced keys of the
store layout: each is the documented prefix followed by the rendering of
its argument, for nullifiers, heights, epoch indices, and the three root
kinds, as well as the quarantined nullifiers and the quarantine schedule. -/
theorem state_keys_namespaced (D : KeyDisplay) (nf : Nullifier)
    (height index epoch r er br : Nat) :
    spent_nullifier_lookup D nf =
        "shielded_pool/spent_nullifiers/" ++ D.showNullifier nf ∧
    anchor_by_height height = "shielded_pool/anchor/" ++ toString height ∧
    anchor_lookup D r = "shielded_pool/valid_anchors/" ++ D.showRoot r ∧
    epoch_anchor_by_index index =
        "shielded_pool/epoch_anchor/" ++ toString index ∧
    epoch_anchor_lookup D er =
        "shielded_pool/valid_epoch_anchors/" ++ D.showEpochRoot er ∧
    block_anchor_by_height height =
        "shielded_pool/block_anchor/" ++ toString height ∧
    block_anchor_lookup D br =
        "shielded_pool/valid_block_anchors/" ++ D.showBlockRoot br ∧
    quarantined_spent_nullifier_lookup D nf =
        "shielded_pool/quarantined_spent_nullifiers/" ++ D.showNullifier nf ∧
    scheduled_to_apply epoch =
        "shielded_pool/quarantined_to_apply_in_epoch/" ++ toString epoch :=
  ⟨rfl, rfl, rfl, rfl, rfl, rfl, rfl, rfl, rfl⟩

/-! ## Swap and SwapClaim actions (transaction/src/action/swap.rs,
transaction/src/action/swap_claim.rs) -/

/-- `swap::Body`: the public body of a Swap action. -/
structure SwapBody where
  tradingPair : TradingPair
  delta1 : Nat
  delta2 : Nat
  feeCommitment : Nat
  swapNft : Nat
  swapCiphertext : List Nat
  deriving Repr, DecidableEq

/-- The `Swap` action: a proof and a body. -/
structure Swap where
  proof : SwapProof
  body : SwapBody
  deriving Repr, DecidableEq

/-- `Swap::value_commitment`, translated from the Rust source: commits
`(delta_1, asset_1)` and `(delta_2, asset_2)` with zero blinding, adds the
fee commitment, and negates the sum. -/
def Swap.value_commitment (P : Primitives) (s : Swap) : Nat :=
  let input1 := P.valueCommit
    { amount := s.body.delta1, assetId := s.body.tradingPair.asset1 } 0
  let input2 := P.valueCommit
    { amount := s.body.delta2, assetId := s.body.tradingPair.asset2 } 0
  P.vcNeg (P.vcAdd (P.vcAdd input1 input2) s.body.feeCommitment)

/-- `swap_claim::Body`: the public body of a SwapClaim action. -/
structure SwapClaimBody where
  nullifier : Nullifier
  fee : Fee
  output1 : Nat
  output2 : Nat
  outputData : BatchSwapOutputData
  epochDuration : Nat
  deriving Repr, DecidableEq

/-- The `SwapClaim` action: a proof and a body. -/
structure SwapClaim where
  proof : SwapClaimProof
  body : SwapClaimBody
  deriving Repr, DecidableEq

/-- `SwapClaim::value_commitment`, translated from the Rust source: the
pre-paid fee committed with a zero blinding factor. -/
def SwapClaim.value_commitment (P : Primitives) (c : SwapClaim) : Nat :=
  P.feeCommit c.body.fee 0

/-- C10: the swap actions' balance contributions are public, zero-blinding
formulas: a Swap contributes the negation of the sum of its two
zero-blinded inputs and its fee commitment, and a SwapClaim contributes
its fee committed with zero blinding — independent of the two output
payloads carried in its body. -/
theorem swap_action_value_commitments (P : Primitives) (s : Swap)
    (c : SwapClaim) (o1 o2 : Nat) :
    s.value_commitment P =
      P.vcNeg (P.vcAdd
        (P.vcAdd
          (P.valueCommit
            { amount := s.body.delta1, assetId := s.body.tradingPair.asset1 } 0)
          (P.valueCommit
            { amount := s.body.delta2, assetId := s.body.tradingPair.asset2 } 0))
        s.body.feeCommitment) ∧
    c.value_commitment P = P.feeCommit c.body.fee 0 ∧
    SwapClaim.value_commitment P
        { c with body := { c.body with output1 := o1, output2 := o2 } } =
      c.value_commitment P :=
  ⟨rfl, rfl, rfl⟩

/-! ## Protobuf conversions (crypto/src/proofs/transparent.rs)

The `From` impls turn each proof struct into its protobuf message by
encoding every field (compressed points, canonical field-element bytes,
nested messages); the `TryFrom` impls decode them back, failing on any
malformed field.  The leaf encoders and decoders (decaf377 compression,
`Fq`/`Fr` byte codecs, the tct proof, address, trading-pair and fee
message conversions) are external; they are collected in `Codecs`, and
`LawfulCodecs` states the canonical round-trip each satisfies. -/

/-- The leaf codecs the proof-struct conversions compose.  Byte-vector
encodings are `List Nat`; nested protobuf messages are opaque `Nat`s. -/
structure Codecs where
  /-- `Fq::to_bytes` then `to_vec`. -/
  fqEnc : Fq → List Nat
  /-- `try_into [u8; 32]` then `Fq::from_bytes`. -/
  fqDec : List Nat → Option Fq
  /-- `Fq::from_le_bytes_mod_order` (total: reduces non-canonical bytes). -/
  fqDecModOrder : List Nat → Fq
  /-- `Fr::to_bytes` then `to_vec`. -/
  frEnc : Fr → List Nat
  /-- `try_into [u8; 32]` then `Fr::from_bytes`. -/
  frDec : List Nat → Option Fr
  /-- `vartime_compress` then `to_vec`. -/
  elemEnc : Element → List Nat
  /-- `try_into [u8; 32]` then `vartime_decompress`. -/
  elemDec : List Nat → Option Element
  /-- A raw 32-byte field (`pk_d`, `ck_d`) to `Vec<u8>`. -/
  bytesEnc : B32 → List Nat
  /-- `try_into [u8; 32]`. -/
  bytesDec : List Nat → Option B32
  /-- A spend-auth verification key into its 32 bytes, then `to_vec`. -/
  vkEnc : Nat → List Nat
  /-- `try_into [u8; 32]` then `VerificationKey::try_from`. -/
  vkDec : List Nat → Option Nat
  /-- `ka::Secret::to_bytes` then `to_vec`. -/
  eskEnc : Fr → List Nat
  /-- `try_into [u8; 32]`, `Fr::from_bytes`, then `Secret::new_from_field`. -/
  eskDec : List Nat → Option Fr
  /-- `tct::Proof` into its protobuf message. -/
  tctProofEnc : TctProof → Nat
  /-- The protobuf message back into a `tct::Proof`. -/
  tctProofDec : Nat → Option TctProof
  /-- `Address` into its protobuf message. -/
  addrEnc : Address → Nat
  /-- The protobuf message back into an `Address`. -/
  addrDec : Nat → Option Address
  /-- `TradingPair` into its protobuf message. -/
  tpEnc : TradingPair → Nat
  /-- The protobuf message back into a `TradingPair`. -/
  tpDec : Nat → Option TradingPair
  /-- `Fee` into its protobuf message. -/
  feeEnc : Fee → Nat
  /-- The protobuf message back into a `Fee`. -/
  feeDec : Nat → Option Fee

/-- Each leaf codec decodes its own canonical encoding back to the value:
the round-trip laws of the external encoders that the conversions rely
on (canonical byte encodings of field elements, decaf points, keys, and
the nested tct-proof, address, trading-pair and fee messages). -/
structure LawfulCodecs (C : Codecs) : Prop where
  fq : ∀ x, C.fqDec (C.fqEnc x) = some x
  fqMod : ∀ x, C.fqDecModOrder (C.fqEnc x) = x
  fr : ∀ x, C.frDec (C.frEnc x) = some x
  elem : ∀ x, C.elemDec (C.elemEnc x) = some x
  bytes : ∀ x, C.bytesDec (C.bytesEnc x) = some x
  vk : ∀ x, C.vkDec (C.vkEnc x) = some x
  esk : ∀ x, C.eskDec (C.eskEnc x) = some x
  tctProof : ∀ x, C.tctProofDec (C.tctProofEnc x) = some x
  addr : ∀ x, C.addrDec (C.addrEnc x) = some x
  tp : ∀ x, C.tpDec (C.tpEnc x) = some x
  fee : ∀ x, C.feeDec (C.feeEnc x) = some x

/-- The protobuf message `transparent_proofs::SpendProof`. -/
structure PbSpendProof where
  noteCommitmentProof : Option Nat
  g_d : List Nat
  pk_d : List Nat
  valueAmount : Nat
  valueAssetId : List Nat
  vBlinding : List Nat
  noteBlinding : List Nat
  spendAuthRandomizer : List Nat
  ak : List Nat
  nk : List Nat
  ck_d : List Nat
  deriving Repr, DecidableEq

/-- `From<SpendProof> for transparent_proofs::SpendProof`. -/
def spendProofToPb (C : Codecs) (msg : SpendProof) : PbSpendProof where
  noteCommitmentProof := some (C.tctProofEnc msg.noteCommitmentProof)
  g_d := C.elemEnc msg.g_d
  pk_d := C.bytesEnc msg.pk_d
  valueAmount := msg.value.amount
  valueAssetId := C.fqEnc msg.value.assetId
  vBlinding := C.frEnc msg.vBlinding
  noteBlinding := C.fqEnc msg.noteBlinding
  spendAuthRandomizer := C.frEnc msg.spendAuthRandomizer
  ak := C.vkEnc msg.ak
  nk := C.fqEnc msg.nk
  ck_d := C.bytesEnc msg.ck_d

/-- `TryFrom<transparent_proofs::SpendProof> for SpendProof`: every field
is decoded, any failure making the whole conversion fail. -/
def spendProofFromPb (C : Codecs) (proto : PbSpendProof) : Option SpendProof := do
  let proofMsg ← proto.noteCommitmentProof
  let noteCommitmentProof ← C.tctProofDec proofMsg
  let g_d ← C.elemDec proto.g_d
  let pk_d ← C.bytesDec proto.pk_d
  let ck_d ← C.bytesDec proto.ck_d
  let assetId ← C.fqDec proto.valueAssetId
  let vBlinding ← C.frDec proto.vBlinding
  let noteBlinding ← C.fqDec proto.noteBlinding
  let spendAuthRandomizer ← C.frDec proto.spendAuthRandomizer
  let ak ← C.vkDec proto.ak
  let nk ← C.fqDec proto.nk
  some { noteCommitmentProof, g_d, pk_d, ck_d,
         value := { amount := proto.valueAmount, assetId },
         vBlinding, noteBlinding, spendAuthRandomizer, ak, nk }

/-- The protobuf message `transparent_proofs::OutputProof`. -/
structure PbOutputProof where
  g_d : List Nat
  pk_d : List Nat
  ck_d : List Nat
  valueAmount : Nat
  valueAssetId : List Nat
  vBlinding : List Nat
  noteBlinding : List Nat
  esk : List Nat
  deriving Repr, DecidableEq

/-- `From<OutputProof> for transparent_proofs::OutputProof`. -/
def outputProofToPb (C : Codecs) (msg : OutputProof) : PbOutputProof where
  g_d := C.elemEnc msg.g_d
  pk_d := C.bytesEnc msg.pk_d
  ck_d := C.bytesEnc msg.ck_d
  valueAmount := msg.value.amount
  valueAssetId := C.fqEnc msg.value.assetId
  vBlinding := C.frEnc msg.vBlinding
  noteBlinding := C.fqEnc msg.noteBlinding
  esk := C.eskEnc msg.esk

/-- `TryFrom<transparent_proofs::OutputProof> for OutputProof`. -/
def outputProofFromPb (C : Codecs) (proto : PbOutputProof) : Option OutputProof := do
  let g_d ← C.elemDec proto.g_d
  let esk ← C.eskDec proto.esk
  let pk_d ← C.bytesDec proto.pk_d
  let ck_d ← C.bytesDec proto.ck_d
  let assetId ← C.fqDec proto.valueAssetId
  let vBlinding ← C.frDec proto.vBlinding
  let noteBlinding ← C.fqDec proto.noteBlinding
  some { g_d, pk_d, ck_d,
         value := { amount := proto.valueAmount, assetId },
         vBlinding, noteBlinding, esk }

/-- The protobuf message `transparent_proofs::SwapClaimProof`. -/
structure PbSwapClaimProof where
  noteCommitmentProof : Option Nat
  claimAddress : Option Nat
  tradingPair : Option Nat
  delta1 : Nat
  delta2 : Nat
  lambda1 : Nat
  lambda2 : Nat
  noteBlinding1 : List Nat
  noteBlinding2 : List Nat
  esk1 : List Nat
  esk2 : List Nat
  swapNftAssetId : List Nat
  noteBlinding : List Nat
  nk : List Nat
  deriving Repr, DecidableEq

/-- `From<SwapClaimProof> for transparent_proofs::SwapClaimProof`. -/
def swapClaimProofToPb (C : Codecs) (msg : SwapClaimProof) : PbSwapClaimProof where
  noteCommitmentProof := some (C.tctProofEnc msg.noteCommitmentProof)
  claimAddress := some (C.addrEnc msg.claimAddress)
  tradingPair := some (C.tpEnc msg.tradingPair)
  delta1 := msg.delta1
  delta2 := msg.delta2
  lambda1 := msg.lambda1
  lambda2 := msg.lambda2
  noteBlinding1 := C.fqEnc msg.noteBlinding1
  noteBlinding2 := C.fqEnc msg.noteBlinding2
  esk1 := C.eskEnc msg.esk1
  esk2 := C.eskEnc msg.esk2
  swapNftAssetId := C.fqEnc msg.swapNftAssetId
  noteBlinding := C.fqEnc msg.noteBlinding
  nk := C.fqEnc msg.nk

/-- `TryFrom<transparent_proofs::SwapClaimProof> for SwapClaimProof`: the
two output-note blindings are decoded with the total
`from_le_bytes_mod_order`, everything else with the fallible decoders. -/
def swapClaimProofFromPb (C : Codecs) (proto : PbSwapClaimProof) :
    Option SwapClaimProof := do
  let esk1 ← C.eskDec proto.esk1
  let esk2 ← C.eskDec proto.esk2
  let tpMsg ← proto.tradingPair
  let tradingPair ← C.tpDec tpMsg
  let proofMsg ← proto.noteCommitmentProof
  let noteCommitmentProof ← C.tctProofDec proofMsg
  let addrMsg ← proto.claimAddress
  let claimAddress ← C.addrDec addrMsg
  let swapNftAssetId ← C.fqDec proto.swapNftAssetId
  let noteBlinding ← C.fqDec proto.noteBlinding
  let nk ← C.fqDec proto.nk
  some { esk1, esk2,
         noteBlinding1 := C.fqDecModOrder proto.noteBlinding1,
         noteBlinding2 := C.fqDecModOrder proto.noteBlinding2,
         lambda2 := proto.lambda2, lambda1 := proto.lambda1,
         delta2 := proto.delta2, delta1 := proto.delta1,
         tradingPair, noteCommitmentProof, claimAddress,
         swapNftAssetId, noteBlinding, nk }

/-- The protobuf message `transparent_proofs::SwapProof`. -/
structure PbSwapProof where
  claimAddress : Option Nat
  delta1 : Nat
  t1 : List Nat
  delta2 : Nat
  t2 : List Nat
  fee : Option Nat
  swapNftAssetId : List Nat
  noteBlinding : List Nat
  esk : List Nat
  deriving Repr, DecidableEq

/-- `From<SwapProof> for transparent_proofs::SwapProof`. -/
def swapProofToPb (C : Codecs) (msg : SwapProof) : PbSwapProof where
  claimAddress := some (C.addrEnc msg.claimAddress)
  delta1 := msg.value_t1.amount
  t1 := C.fqEnc msg.value_t1.assetId
  delta2 := msg.value_t2.amount
  t2 := C.fqEnc msg.value_t2.assetId
  fee := some (C.feeEnc msg.feeDelta)
  swapNftAssetId := C.fqEnc msg.swapNftAssetId
  noteBlinding := C.fqEnc msg.noteBlinding
  esk := C.eskEnc msg.esk

/-- `TryFrom<transparent_proofs::SwapProof> for SwapProof`. -/
def swapProofFromPb (C : Codecs) (proto : PbSwapProof) : Option SwapProof := do
  let esk ← C.eskDec proto.esk
  let addrMsg ← proto.claimAddress
  let claimAddress ← C.addrDec addrMsg
  let t1 ← C.fqDec proto.t1
  let t2 ← C.fqDec proto.t2
  let feeMsg ← proto.fee
  let feeDelta ← C.feeDec feeMsg
  let swapNftAssetId ← C.fqDec proto.swapNftAssetId
  let noteBlinding ← C.fqDec proto.noteBlinding
  some { claimAddress,
         value_t1 := { amount := proto.delta1, assetId := t1 },
         value_t2 := { amount := proto.delta2, assetId := t2 },
         feeDelta, swapNftAssetId, noteBlinding, esk }

lemma spendProof_roundtrip (C : Codecs) (h : LawfulCodecs C) (p : SpendProof) :
    spendProofFromPb C (spendProofToPb C p) = some p := by
  simp [spendProofFromPb, spendProofToPb, h.fq, h.fr, h.elem, h.bytes, h.vk,
    h.tctProof]

lemma outputProof_roundtrip (C : Codecs) (h : LawfulCodecs C) (p : OutputProof) :
    outputProofFromPb C (outputProofToPb C p) = some p := by
  simp [outputProofFromPb, outputProofToPb, h.fq, h.fr, h.elem, h.bytes, h.esk]

lemma swapClaimProof_roundtrip (C : Codecs) (h : LawfulCodecs C)
    (p : SwapClaimProof) :
    swapClaimProofFromPb C (swapClaimProofToPb C p) = some p := by
  simp [swapClaimProofFromPb, swapClaimProofToPb, h.fq, h.fqMod, h.esk,
    h.tctProof, h.addr, h.tp]

lemma swapProof_roundtrip (C : Codecs) (h : LawfulCodecs C) (p : SwapProof) :
    swapProofFromPb C (swapProofToPb C p) = some p := by
  simp [swapProofFromPb, swapProofToPb, h.fq, h.esk, h.addr, h.fee]

/-- C7: for every lawful choice of the leaf codecs, decoding the protobuf
message produced from a `SpendProof`, `OutputProof`, `SwapProof` or
`SwapClaimProof` succeeds and returns the original value in every field. -/
theorem proof_proto_roundtrips (C : Codecs) (h : LawfulCodecs C)
    (sp : SpendProof) (op : OutputProof) (scp : SwapClaimProof)
    (swp : SwapProof) :
    spendProofFromPb C (spendProofToPb C sp) = some sp ∧
    outputProofFromPb C (outputProofToPb C op) = some op ∧
    swapClaimProofFromPb C (swapClaimProofToPb C scp) = some scp ∧
    swapProofFromPb C (swapProofToPb C swp) = some swp :=
  ⟨spendProof_roundtrip C h sp, outputProof_roundtrip C h op,
   swapClaimProof_roundtrip C h scp, swapProof_roundtrip C h swp⟩

/-- A concrete lawful codec instance: byte codecs wrap the value in a
singleton list, nested messages use the pairing function. -/
def cCodecs : Codecs where
  fqEnc := fun x => [x]
  fqDec := fun l => match l with | [x] => some x | _ => none
  fqDecModOrder := fun l => match l with | [x] => x | _ => 0
  frEnc := fun x => [x]
  frDec := fun l => match l with | [x] => some x | _ => none
  elemEnc := fun x => [x]
  elemDec := fun l => match l with | [x] => some x | _ => none
  bytesEnc := fun x => [x]
  bytesDec := fun l => match l with | [x] => some x | _ => none
  vkEnc := fun x => [x]
  vkDec := fun l => match l with | [x] => some x | _ => none
  eskEnc := fun x => [x]
  eskDec := fun l => match l with | [x] => some x | _ => none
  tctProofEnc := fun p => Nat.pair p.position p.commitment
  tctProofDec := fun n =>
    some { position := (Nat.unpair n).1, commitment := (Nat.unpair n).2 }
  addrEnc := fun a =>
    Nat.pair (Nat.pair a.diversifiedGenerator a.transmissionKey)
      (Nat.pair a.transmissionKeyS a.clueKey)
  addrDec := fun n =>
    some { diversifiedGenerator := (Nat.unpair (Nat.unpair n).1).1,
           transmissionKey := (Nat.unpair (Nat.unpair n).1).2,
           transmissionKeyS := (Nat.unpair (Nat.unpair n).2).1,
           clueKey := (Nat.unpair (Nat.unpair n).2).2 }
  tpEnc := fun t => Nat.pair t.asset1 t.asset2
  tpDec := fun n => some { asset1 := (Nat.unpair n).1, asset2 := (Nat.unpair n).2 }
  feeEnc := fun f => f
  feeDec := fun n => some n

lemma cCodecs_lawful : LawfulCodecs cCodecs := by
  constructor <;> intro x <;> simp [cCodecs, Nat.unpair_pair]

/-- A concrete `SpendProof` for evaluating the round trip. -/
def cSpendProof : SpendProof where
  noteCommitmentProof := { position := 3, commitment := 5 }
  g_d := 7
  pk_d := 11
  ck_d := 13
  value := { amount := 17, assetId := 19 }
  vBlinding := 23
  noteBlinding := 29
  spendAuthRandomizer := 31
  ak := 37
  nk := 41

/-- A concrete `OutputProof` for evaluating the round trip. -/
def cOutputProof : OutputProof where
  g_d := 2
  pk_d := 3
  ck_d := 5
  value := { amount := 7, assetId := 11 }
  vBlinding := 13
  noteBlinding := 17
  esk := 19

/-- A concrete `SwapProof` for evaluating the round trip. -/
def cSwapProof : SwapProof where
  claimAddress :=
    { diversifiedGenerator := 2, transmissionKey := 3,
      transmissionKeyS := 5, clueKey := 7 }
  value_t1 := { amount := 11, assetId := 13 }
  value_t2 := { amount := 17, assetId := 19 }
  feeDelta := 23
  swapNftAssetId := 29
  noteBlinding := 31
  esk := 37

/-- C7 witness: the round trip evaluated at the concrete codecs and the
concrete proof values above (using `cSwapClaimProof` from the C2 input). -/
theorem proof_proto_roundtrips_witness :
    spendProofFromPb cCodecs (spendProofToPb cCodecs cSpendProof) =
      some cSpendProof ∧
    outputProofFromPb cCodecs (outputProofToPb cCodecs cOutputProof) =
      some cOutputProof ∧
    swapClaimProofFromPb cCodecs (swapClaimProofToPb cCodecs cSwapClaimProof) =
      some cSwapClaimProof ∧
    swapProofFromPb cCodecs (swapProofToPb cCodecs cSwapProof) =
      some cSwapProof :=
  proof_proto_roundtrips cCodecs cCodecs_lawful cSpendProof cOutputProof
    cSwapClaimProof cSwapProof
